import Mathlib

/-!
# Verification of the message relay and delivery-queue subsystem

Shallow embedding of the delivery-queue core of the WhatsApp–Telegram
bridge repository: the in-memory message queue, the drain functions of the
main variants, and the connection-lifecycle handlers that gate draining.

Embedded variants:
* `index.js` (primary variant): `processMessageQueue` with a sequential
  while-loop, per-job 3-attempt retry, and head-reinsertion of failed
  jobs marked `important`.
* `index.js` (mega variant, second document) and `part_002`:
  `processQueue` draining a batch of 10 concurrently, dropping failures.
* `part_004` (Baileys variant): `processQueuedMessages` with sequential
  sends, unconditional head-reinsertion of the failed job and a `break`.
* `part_005` (ultra-fast variant): `processMessageQueue` splicing a batch
  of `CONCURRENT_MESSAGES = 5`, dispatching concurrently, dropping
  failures, and re-scheduling itself while the queue is non-empty.
* `management.js`: `selectGroupByName` (case-insensitive substring
  match) and the disconnect handler that clears the current group.

Network sends are modelled by outcome oracles: either a per-job predicate
`ok : α → Bool` (batch variants, at most one attempt per job per cycle) or
a stream of per-attempt outcomes (primary variant, whose in-loop retries
may attempt one job many times). Every send handed to the outbound
transport is recorded in a `SendEvent` trace.
-/

namespace WtBridge

/-- An observable interaction with the outbound transport during a drain:
a job's send either succeeded or threw. -/
inductive SendEvent (α : Type) where
  | sent (m : α)
  | failed (m : α)
  deriving DecidableEq, Repr

/-- The job a send event was about. -/
def SendEvent.job {α : Type} : SendEvent α → α
  | .sent m => m
  | .failed m => m

/-- Jobs successfully delivered in a trace. -/
def sentJobs {α : Type} (evs : List (SendEvent α)) : List α :=
  evs.filterMap fun e =>
    match e with
    | .sent m => some m
    | .failed _ => none

/-- Jobs whose send failed in a trace. -/
def failedJobs {α : Type} (evs : List (SendEvent α)) : List α :=
  evs.filterMap fun e =>
    match e with
    | .sent _ => none
    | .failed m => some m

/-- A chat as returned by the outbound transport's `getChats()` listing:
`name`, `isGroup`, and the serialized id. -/
structure Chat where
  name : String
  isGroup : Bool
  id : String
  deriving DecidableEq, Repr

/-- JavaScript `String.prototype.toLowerCase`, restricted to the
per-character lowering that the group names here exercise. -/
def jsToLower (s : String) : String := String.mk (s.data.map Char.toLower)

/-- A relay job as pushed by the primary variant's `channel_post` handler
(index.js): a `type` tag, the composed text `content`, and the
`important` flag deciding requeue-on-failure. -/
structure QMsg where
  type : String
  content : String
  important : Bool
  deriving DecidableEq, Repr

/-- The primary variant's module-level mutable state (index.js):
`isWhatsAppReady`, `targetChat`, `messageQueue`, `isProcessing`. -/
structure IndexState where
  isWhatsAppReady : Bool
  targetChat : Option Chat
  messageQueue : List QMsg
  isProcessing : Bool
  deriving DecidableEq, Repr

/-- The readiness gate (spec §4.1): dispatch may proceed only when the
connection is ready and the destination chat has been resolved. This is
exactly the condition the drain guards test. -/
def gateIsOpen (s : IndexState) : Bool :=
  s.isWhatsAppReady && s.targetChat.isSome

/-- The inner retry loop of the primary `processMessageQueue`
(index.js, `let retries = 3; while (retries > 0) ...`): attempt the send;
on success stop with `true`; on error decrement and, when the counter
reaches zero, rethrow (`false`). `att` streams the outcome of each
attempt; an exhausted stream stands for attempts that fail. -/
def sendRetryLoop : Nat → List Bool → Bool
  | _, [] => false
  | 0, _ => false
  | r + 1, a :: rest =>
    if a then true
    else if r = 0 then false
    else sendRetryLoop r rest

/-- The while-loop of the primary `processMessageQueue` (index.js):
`while (messageQueue.length > 0 && isWhatsAppReady)` shift the head job,
send it with `sendRetryLoop 3`, and on failure unshift it back iff
`message.important`. `atts` streams, one entry per loop iteration, the
outcomes of that iteration's send attempts; the stream running out models
the loop being cut off by `isWhatsAppReady` turning false, which leaves
the queue as it stands. Returns the final queue and the event trace. -/
def pmqLoop : List (List Bool) → List QMsg → List QMsg × List (SendEvent QMsg)
  | _, [] => ([], [])
  | [], q => (q, [])
  | att :: atts, m :: q =>
    if sendRetryLoop 3 att then
      let r := pmqLoop atts q
      (r.1, SendEvent.sent m :: r.2)
    else
      let r := pmqLoop atts (if m.important then m :: q else q)
      (r.1, SendEvent.failed m :: r.2)

/-- The primary variant's `processMessageQueue` (index.js): the re-entry
and readiness guard (`if (isProcessing || messageQueue.length === 0 ||
!isWhatsAppReady || !targetChat) return;`) followed by the drain loop;
`isProcessing` is set for the loop's duration and reset afterwards, so on
completion it reads as it did on entry. -/
def processMessageQueue (atts : List (List Bool)) (s : IndexState) :
    IndexState × List (SendEvent QMsg) :=
  if s.isProcessing || s.messageQueue.isEmpty
      || !s.isWhatsAppReady || s.targetChat.isNone then
    (s, [])
  else
    let r := pmqLoop atts s.messageQueue
    ({ s with messageQueue := r.1 }, r.2)

/-- A Telegram channel post, carrying exactly the fields the primary
variant's `channel_post` handler inspects. -/
inductive TgPost where
  | text (t : String)
  | photo (caption : Option String)
  | video (caption : Option String)
  | document (fileName : String) (caption : Option String)
  | sticker (emoji : Option String)
  | voice (duration : Nat)
  | poll (question : String) (options : List String)
  deriving DecidableEq, Repr

/-- The job constructed for each kind of post by the primary variant's
`channel_post` handler (index.js): every branch pushes `important: true`
except the sticker branch, which pushes `important: false`. -/
def buildJob : TgPost → QMsg
  | .text t =>
    { type := "text", content := t, important := true }
  | .photo c =>
    { type := "photo", content := "📸 *Photo*\n" ++ c.getD "", important := true }
  | .video c =>
    { type := "video", content := "🎥 *Video*\n" ++ c.getD "", important := true }
  | .document f c =>
    { type := "document", content := "📎 *File:* " ++ f ++ "\n" ++ c.getD "",
      important := true }
  | .sticker e =>
    { type := "sticker", content := "🎭 [Sticker: " ++ e.getD "N/A" ++ "]",
      important := false }
  | .voice d =>
    { type := "voice", content := "🎤 [Voice message: " ++ toString d ++ "s]",
      important := true }
  | .poll q opts =>
    { type := "poll",
      content := "📊 *Poll:* " ++ q ++ "\n"
        ++ String.intercalate "\n" (opts.map fun o => "• " ++ o),
      important := true }

/-- Whether a post is a sticker (the one kind enqueued as unimportant). -/
def TgPost.isSticker : TgPost → Bool
  | .sticker _ => true
  | _ => false

/-- The primary variant's `channel_post` handler: push the built job to
the queue tail, then call `processMessageQueue()` immediately. -/
def handleChannelPost (atts : List (List Bool)) (p : TgPost) (s : IndexState) :
    IndexState × List (SendEvent QMsg) :=
  processMessageQueue atts { s with messageQueue := s.messageQueue ++ [buildJob p] }

/-- A sequence of channel posts arriving in order; each is handled by
`handleChannelPost` (whose drain call is a no-op while the gate stays
closed). -/
def handlePosts (atts : List (List Bool)) (ps : List TgPost) (s : IndexState) :
    IndexState :=
  ps.foldl (fun t p => (handleChannelPost atts p t).1) s

/-- The primary variant's `ready` handler (index.js): set
`isWhatsAppReady`, resolve `targetChat = chats.find(chat => chat.name ===
WHATSAPP_GROUP_NAME)` (an exact, case-sensitive comparison), and when no
chat matches log the listing of available chats (name and group flag).
Returns the new state and the diagnostic listing when one is produced. -/
def onReady (chats : List Chat) (groupName : String) (s : IndexState) :
    IndexState × Option (List (String × Bool)) :=
  let t := chats.find? fun c => c.name == groupName
  match t with
  | some c => ({ s with isWhatsAppReady := true, targetChat := some c }, none)
  | none =>
    ({ s with isWhatsAppReady := true, targetChat := none },
      some (chats.map fun c => (c.name, c.isGroup)))

/-- The primary variant's `disconnected` handler (index.js): set
`isWhatsAppReady = false` and schedule `initWhatsApp` after 5000 ms.
`targetChat` is not touched. Returns the new state and the delay (ms) of
the scheduled reconnect attempt, if any. -/
def onDisconnectedIndex (s : IndexState) : IndexState × Option Nat :=
  ({ s with isWhatsAppReady := false }, some 5000)

/-- Repeated external invocations of a drain function `f` (the 500 ms
`setInterval(processMessageQueue, 500)` poll, or enqueue-triggered
kicks): run `f` a number of times from a state, concatenating traces. -/
def iterDrain {σ ε : Type} (f : σ → σ × List ε) : Nat → σ → σ × List ε
  | 0, s => (s, [])
  | n + 1, s =>
    let r := f s
    let r2 := iterDrain f n r.1
    (r2.1, r.2 ++ r2.2)

/-- A queued message of the mega variant (second document of index.js
and part_002): the content to send and the options object (carrying the
caption when the content is media). -/
structure QMsg2 where
  content : String
  options : Option String
  deriving DecidableEq, Repr

/-- Module-level state of the mega variant and of part_002: `isReady`,
`whatsappGroupId`, `messageQueue`, `isProcessing`. -/
structure MegaState where
  isReady : Bool
  whatsappGroupId : Option String
  messageQueue : List QMsg2
  isProcessing : Bool
  deriving DecidableEq, Repr

/-- The mega variant's group resolution inside the `ready` handler
(index.js, second document): `chats.find(chat => chat.isGroup &&
chat.name.toLowerCase() === WHATSAPP_GROUP_NAME.toLowerCase())`. -/
def findGroupMega (chats : List Chat) (groupName : String) : Option Chat :=
  chats.find? fun c => c.isGroup && jsToLower c.name == jsToLower groupName

/-- `Promise.all(batch.map(async msg => try send; catch log))`: every job
in the batch is attempted exactly once, each outcome depending only on
that job's oracle result; a failure is logged and otherwise dropped. The
trace lists the events in batch order (the order the sends are
initiated). -/
def dispatchBatch {α : Type} (ok : α → Bool) (batch : List α) : List (SendEvent α) :=
  batch.map fun m => if ok m then SendEvent.sent m else SendEvent.failed m

/-- part_002's `processQueue`: the guard `if (isProcessing ||
messageQueue.length === 0 || !isReady || !whatsappGroupId) return;`, then
`const batch = messageQueue.splice(0, 10)` dispatched concurrently with
per-job try/catch. One invocation (the trailing `setImmediate` re-kick is
modelled by iterating this function). -/
def processQueue (ok : QMsg2 → Bool) (s : MegaState) :
    MegaState × List (SendEvent QMsg2) :=
  if s.isProcessing || s.messageQueue.isEmpty
      || !s.isReady || s.whatsappGroupId.isNone then
    (s, [])
  else
    ({ s with messageQueue := s.messageQueue.drop 10 },
      dispatchBatch ok (s.messageQueue.take 10))

/-- The mega variant's `disconnected` handler (index.js, second
document): `isReady = false; setTimeout(initWhatsApp, 5000)`. The group
id is not touched. -/
def onDisconnectedMega (s : MegaState) : MegaState × Option Nat :=
  ({ s with isReady := false }, some 5000)

/-- A queued message of the ultra-fast variant (part_005): `{ type,
content }`. -/
structure QMsg5 where
  type : String
  content : String
  deriving DecidableEq, Repr

/-- Module-level state of the ultra-fast variant (part_005). -/
structure FastState where
  isWhatsAppReady : Bool
  targetChat : Option Chat
  messageQueue : List QMsg5
  isProcessing : Bool
  deriving DecidableEq, Repr

/-- part_005's batch-size constant. -/
def CONCURRENT_MESSAGES : Nat := 5

/-- One invocation of part_005's `processMessageQueue`: the guard, then
`messageQueue.splice(0, CONCURRENT_MESSAGES)` dispatched concurrently
with per-job try/catch (failures are logged and dropped); `isProcessing`
is reset before returning. The trailing `setImmediate(processMessageQueue)`
re-kick while the queue is non-empty is modelled by `drain5Iter`. -/
def processMessageQueue5 (ok : QMsg5 → Bool) (s : FastState) :
    FastState × List (SendEvent QMsg5) :=
  if s.isProcessing || s.messageQueue.isEmpty
      || !s.isWhatsAppReady || s.targetChat.isNone then
    (s, [])
  else
    ({ s with messageQueue := s.messageQueue.drop CONCURRENT_MESSAGES },
      dispatchBatch ok (s.messageQueue.take CONCURRENT_MESSAGES))

/-- `n` consecutive batch cycles of part_005's drain (the `setImmediate`
re-invocation chain and the 100 ms fallback poll). -/
def drain5Iter (ok : QMsg5 → Bool) : Nat → FastState → FastState × List (SendEvent QMsg5)
  | 0, s => (s, [])
  | n + 1, s =>
    let r := processMessageQueue5 ok s
    let r2 := drain5Iter ok n r.1
    (r2.1, r.2 ++ r2.2)

/-- part_005's `disconnected` handler: `isWhatsAppReady = false;
setTimeout(initWhatsApp, 1000)`. `targetChat` is not touched. -/
def onDisconnectedFast (s : FastState) : FastState × Option Nat :=
  ({ s with isWhatsAppReady := false }, some 1000)

/-- A queued message of the Baileys variant (part_004): the prepared
content and the enqueue timestamp. -/
structure QMsg4 where
  content : String
  timestamp : Nat
  deriving DecidableEq, Repr

/-- Module-level state of the Baileys variant (part_004): `isReady`,
`targetGroupId`, `messageQueue`, `isProcessing`. -/
structure BaileysState where
  isReady : Bool
  targetGroupId : Option String
  messageQueue : List QMsg4
  isProcessing : Bool
  deriving DecidableEq, Repr

/-- The while-loop of part_004's `processQueuedMessages`:
`while (messageQueue.length > 0 && isReady && targetGroupId)` shift the
head, send it; on error `messageQueue.unshift(msg); break;`. `ready` and
`tgt` are the values of the loop condition's state reads (constant during
the loop in this single-owner model). -/
def pq4Loop (ok : QMsg4 → Bool) (ready : Bool) (tgt : Option String) :
    List QMsg4 → List QMsg4 × List (SendEvent QMsg4)
  | [] => ([], [])
  | m :: rest =>
    if ready && tgt.isSome then
      if ok m then
        let r := pq4Loop ok ready tgt rest
        (r.1, SendEvent.sent m :: r.2)
      else
        (m :: rest, [SendEvent.failed m])
    else
      (m :: rest, [])

/-- part_004's `processQueuedMessages`: guard `if (isProcessing ||
messageQueue.length === 0) return;` — note the readiness gate is tested
only by the loop condition, not the guard — then the loop, then
`isProcessing = false`. -/
def processQueuedMessages (ok : QMsg4 → Bool) (s : BaileysState) :
    BaileysState × List (SendEvent QMsg4) :=
  if s.isProcessing || s.messageQueue.isEmpty then
    (s, [])
  else
    let r := pq4Loop ok s.isReady s.targetGroupId s.messageQueue
    ({ s with messageQueue := r.1 }, r.2)

/-- Whether `needle` occurs at the start of `hay` (character lists). -/
def strStartsWith : List Char → List Char → Bool
  | _, [] => true
  | [], _ :: _ => false
  | a :: as, b :: bs => a == b && strStartsWith as bs

/-- Whether `needle` occurs anywhere in `hay` (character lists). -/
def listIncludes : List Char → List Char → Bool
  | [], needle => strStartsWith [] needle
  | h :: t, needle => strStartsWith (h :: t) needle || listIncludes t needle

/-- JavaScript `String.prototype.includes`. -/
def strIncludes (s pat : String) : Bool :=
  listIncludes s.toList pat.toList

/-- A group as cached by management.js's `loadGroups`. -/
structure GroupInfo where
  id : String
  name : String
  participantCount : Nat
  deriving DecidableEq, Repr

/-- management.js's `selectGroupByName`: `availableGroups.find(g =>
g.name.toLowerCase().includes(groupName.toLowerCase()))` — a
case-insensitive substring match. Returns the selected group (the source
stores its id and name and reports success). -/
def selectGroupByName (availableGroups : List GroupInfo) (groupName : String) :
    Option GroupInfo :=
  availableGroups.find? fun g => strIncludes (jsToLower g.name) (jsToLower groupName)

/-- The slice of management.js's module state the disconnect handler
touches: `isReady` and `currentGroupId`. -/
structure MgmtState where
  isReady : Bool
  currentGroupId : Option String
  deriving DecidableEq, Repr

/-- management.js's `disconnected` handler: `isReady = false;
currentGroupId = null;` and an admin notification — no reconnect is
scheduled. -/
def onDisconnectedMgmt (s : MgmtState) : MgmtState × Option Nat :=
  ({ s with isReady := false, currentGroupId := none }, none)

/-! ## Concrete fixtures used by witnesses and counterexamples -/

/-- A sample target chat. -/
def chatDeals : Chat := { name := "Deals", isGroup := true, id := "g1" }

/-- A sample important text job. -/
def jobHi : QMsg := { type := "text", content := "hi", important := true }

/-- Primary-variant state: gate closed (disconnected, no target), one job
queued, no drain in progress. -/
def sIdxClosed : IndexState :=
  { isWhatsAppReady := false, targetChat := none,
    messageQueue := [jobHi], isProcessing := false }

/-- Primary-variant state: gate open, one job queued, drain in progress. -/
def sIdxBusy : IndexState :=
  { isWhatsAppReady := true, targetChat := some chatDeals,
    messageQueue := [jobHi], isProcessing := true }

/-- Baileys-variant state: connected but no target resolved, one job
queued. -/
def sB4NoTarget : BaileysState :=
  { isReady := true, targetGroupId := none,
    messageQueue := [{ content := "a", timestamp := 0 }], isProcessing := false }

/-- Ultra-fast-variant state: disconnected, one job queued. -/
def sF5Closed : FastState :=
  { isWhatsAppReady := false, targetChat := none,
    messageQueue := [{ type := "text", content := "x" }], isProcessing := false }

/-- Mega-variant state: gate open, one job queued, drain in progress. -/
def sMegaBusy : MegaState :=
  { isReady := true, whatsappGroupId := some "gid",
    messageQueue := [{ content := "a", options := none }], isProcessing := true }

/-- The primary variant's initial module state (index.js: `isWhatsAppReady
= false`, `targetChat = null`, empty queue, `isProcessing = false`). -/
def s0Idx : IndexState :=
  { isWhatsAppReady := false, targetChat := none,
    messageQueue := [], isProcessing := false }

/-! ## Helper lemmas -/

/-- A drain invocation that is a no-op stays a no-op under any number of
repeated invocations. -/
theorem iterDrain_fixed {σ ε : Type} (f : σ → σ × List ε) (s : σ)
    (h : f s = (s, [])) : ∀ n, iterDrain f n s = (s, []) := by
  intro n
  induction n with
  | zero => rfl
  | succ n ih => simp [iterDrain, h, ih]

/-- The primary drain is a no-op whenever the readiness gate is closed. -/
theorem processMessageQueue_gate_closed (atts : List (List Bool)) (s : IndexState)
    (h : gateIsOpen s = false) : processMessageQueue atts s = (s, []) := by
  cases hr : s.isWhatsAppReady with
  | false => simp [processMessageQueue, hr]
  | true =>
    cases ht : s.targetChat with
    | none => simp [processMessageQueue, ht]
    | some c => simp [gateIsOpen, hr, ht] at h

/-- The Baileys drain is a no-op whenever the readiness gate is closed:
the guard lets it mark `isProcessing`, but the loop condition fails at
once, so the queue is returned untouched and nothing is sent. -/
theorem processQueuedMessages_gate_closed (ok : QMsg4 → Bool) (s : BaileysState)
    (h : s.isReady = false ∨ s.targetGroupId = none) :
    processQueuedMessages ok s = (s, []) := by
  obtain ⟨ir, tg, q, ip⟩ := s
  have hc : (ir && tg.isSome) = false := by
    rcases h with h | h <;> simp_all
  cases q with
  | nil => simp [processQueuedMessages]
  | cons m rest =>
    cases ip with
    | true => simp [processQueuedMessages]
    | false => simp [processQueuedMessages, pq4Loop, hc]

/-- The ultra-fast drain is a no-op whenever the readiness gate is
closed. -/
theorem processMessageQueue5_gate_closed (ok : QMsg5 → Bool) (s : FastState)
    (h : s.isWhatsAppReady = false ∨ s.targetChat = none) :
    processMessageQueue5 ok s = (s, []) := by
  rcases h with h | h <;> simp [processMessageQueue5, h]

/-- When every job of a batch succeeds, the concurrent dispatch delivers
exactly the batch, in batch order. -/
theorem dispatchBatch_all_ok {α : Type} (ok : α → Bool) (b : List α) :
    (∀ m ∈ b, ok m = true) → dispatchBatch ok b = b.map SendEvent.sent := by
  induction b with
  | nil => intro _; rfl
  | cons m rest ih =>
    intro h
    have hm : ok m = true := h m (List.mem_cons_self m rest)
    have hrest := ih fun x hx => h x (List.mem_cons_of_mem m hx)
    simp [dispatchBatch, hm] at hrest ⊢
    exact hrest

/-- While the connection is not ready, the `channel_post` handler appends
the built job to the queue tail and its immediate drain call is a no-op. -/
theorem handleChannelPost_gate_closed (atts : List (List Bool)) (p : TgPost)
    (s : IndexState) (h : s.isWhatsAppReady = false) :
    handleChannelPost atts p s
      = ({ s with messageQueue := s.messageQueue ++ [buildJob p] }, []) := by
  unfold handleChannelPost
  exact processMessageQueue_gate_closed _ _ (by simp [gateIsOpen, h])

/-- Handling a sequence of posts while not ready appends their jobs in
arrival order. -/
theorem handlePosts_gate_closed (atts : List (List Bool)) (ps : List TgPost) :
    ∀ s : IndexState, s.isWhatsAppReady = false →
      handlePosts atts ps s
        = { s with messageQueue := s.messageQueue ++ ps.map buildJob } := by
  induction ps with
  | nil => intro s h; simp [handlePosts]
  | cons p ps ih =>
    intro s h
    have h1 := handleChannelPost_gate_closed atts p s h
    have step : handlePosts atts (p :: ps) s
        = handlePosts atts ps (handleChannelPost atts p s).1 := rfl
    rw [step, h1]
    show handlePosts atts ps { s with messageQueue := s.messageQueue ++ [buildJob p] } = _
    rw [ih { s with messageQueue := s.messageQueue ++ [buildJob p] } h]
    simp

/-- An exhausted attempt stream leaves the queue as it stands. -/
theorem pmqLoop_nil_atts : ∀ q : List QMsg, pmqLoop [] q = (q, [])
  | [] => rfl
  | _ :: _ => rfl

/-- Draining with every attempt succeeding sends the whole queue in
order. -/
theorem pmqLoop_all_success : ∀ q : List QMsg,
    pmqLoop (List.replicate q.length [true]) q = ([], q.map SendEvent.sent) := by
  intro q
  induction q with
  | nil => rfl
  | cons m rest ih =>
    simp [List.replicate_succ, pmqLoop,
      show sendRetryLoop 3 [true] = true from rfl, ih]

/-- With the gate open, no drain in progress and every send succeeding,
the primary drain empties the queue and delivers it in order. -/
theorem processMessageQueue_all_success (s : IndexState) (c : Chat)
    (hp : s.isProcessing = false) (hr : s.isWhatsAppReady = true)
    (ht : s.targetChat = some c) :
    processMessageQueue (List.replicate s.messageQueue.length [true]) s
      = ({ s with messageQueue := [] }, s.messageQueue.map SendEvent.sent) := by
  obtain ⟨ir, tc, q, ip⟩ := s
  simp only at hp hr ht
  subst hp hr ht
  cases q with
  | nil => rfl
  | cons m rest =>
    have hpm := pmqLoop_all_success (m :: rest)
    simp only [List.length_cons] at hpm
    simp [processMessageQueue, hpm]

/-- With the gate open, no drain in progress, every send succeeding and
the queue within one batch, the ultra-fast drain empties the queue and
delivers it in order in one cycle. -/
theorem processMessageQueue5_single_batch (ok : QMsg5 → Bool) (s : FastState)
    (c : Chat) (hp : s.isProcessing = false) (hr : s.isWhatsAppReady = true)
    (ht : s.targetChat = some c) (hok : ∀ m ∈ s.messageQueue, ok m = true)
    (hlen : s.messageQueue.length ≤ CONCURRENT_MESSAGES) :
    processMessageQueue5 ok s
      = ({ s with messageQueue := [] }, s.messageQueue.map SendEvent.sent) := by
  obtain ⟨ir, tc, q, ip⟩ := s
  simp only at hp hr ht hok hlen
  subst hp hr ht
  cases q with
  | nil => rfl
  | cons m rest =>
    have htake : (m :: rest).take CONCURRENT_MESSAGES = m :: rest :=
      List.take_of_length_le hlen
    have hdrop : (m :: rest).drop CONCURRENT_MESSAGES = [] :=
      List.drop_eq_nil_of_le hlen
    simp [processMessageQueue5, htake, hdrop, dispatchBatch_all_ok ok _ hok]

/-! ## Claims -/

/-- C1: while the connection state is not ready or the destination handle
is null, a drain invocation — and any number of repeated invocations —
returns leaving the queue (indeed the whole state) unchanged and sends
nothing, in the primary, Baileys and ultra-fast variants. -/
theorem c1_gate_closed_no_dispatch :
    (∀ (s : IndexState) (atts : List (List Bool)) (n : Nat),
      gateIsOpen s = false →
      iterDrain (processMessageQueue atts) n s = (s, [])) ∧
    (∀ (s : BaileysState) (ok : QMsg4 → Bool) (n : Nat),
      s.isReady = false ∨ s.targetGroupId = none →
      iterDrain (processQueuedMessages ok) n s = (s, [])) ∧
    (∀ (s : FastState) (ok : QMsg5 → Bool) (n : Nat),
      s.isWhatsAppReady = false ∨ s.targetChat = none →
      iterDrain (processMessageQueue5 ok) n s = (s, [])) := by
  refine ⟨?_, ?_, ?_⟩
  · intro s atts n h
    exact iterDrain_fixed _ _ (processMessageQueue_gate_closed atts s h) n
  · intro s ok n h
    exact iterDrain_fixed _ _ (processQueuedMessages_gate_closed ok s h) n
  · intro s ok n h
    exact iterDrain_fixed _ _ (processMessageQueue5_gate_closed ok s h) n

/-- Witness for C1: concrete gate-closed states with non-empty queues,
three drain invocations each: queues unchanged, nothing sent. -/
theorem c1_gate_closed_no_dispatch_witness :
    iterDrain (processMessageQueue [[true]]) 3 sIdxClosed = (sIdxClosed, []) ∧
    iterDrain (processQueuedMessages (fun _ => true)) 3 sB4NoTarget = (sB4NoTarget, []) ∧
    iterDrain (processMessageQueue5 (fun _ => true)) 3 sF5Closed = (sF5Closed, []) := by
  refine ⟨?_, ?_, ?_⟩
  · exact c1_gate_closed_no_dispatch.1 _ [[true]] 3 (by decide)
  · exact c1_gate_closed_no_dispatch.2.1 _ (fun _ => true) 3 (Or.inr rfl)
  · exact c1_gate_closed_no_dispatch.2.2 _ (fun _ => true) 3 (Or.inl rfl)

/-- C2: invoking a drain while one is in progress (`isProcessing` set) is
a no-op that sends nothing and leaves the queue unchanged, in all four
modelled variants. -/
theorem c2_reentry_noop :
    (∀ (atts : List (List Bool)) (s : IndexState),
      s.isProcessing = true → processMessageQueue atts s = (s, [])) ∧
    (∀ (ok : QMsg2 → Bool) (s : MegaState),
      s.isProcessing = true → processQueue ok s = (s, [])) ∧
    (∀ (ok : QMsg5 → Bool) (s : FastState),
      s.isProcessing = true → processMessageQueue5 ok s = (s, [])) ∧
    (∀ (ok : QMsg4 → Bool) (s : BaileysState),
      s.isProcessing = true → processQueuedMessages ok s = (s, [])) := by
  refine ⟨?_, ?_, ?_, ?_⟩ <;> intro _ s h
  · simp [processMessageQueue, h]
  · simp [processQueue, h]
  · simp [processMessageQueue5, h]
  · simp [processQueuedMessages, h]

/-- Witness for C2: a drain re-entered while in progress, with the gate
open and a job queued, changes nothing and sends nothing. -/
theorem c2_reentry_noop_witness :
    processMessageQueue [[true]] sIdxBusy = (sIdxBusy, []) ∧
    processQueue (fun _ => true) sMegaBusy = (sMegaBusy, []) := by
  exact ⟨c2_reentry_noop.1 [[true]] _ rfl, c2_reentry_noop.2.1 (fun _ => true) _ rfl⟩

/-- C3: jobs J1..Jn enqueued in order while the gate is closed are, once
the gate opens (`ready` with successful destination resolution) and with
every send succeeding, handed to the outbound transport in exactly the
order J1..Jn — end to end for the primary variant, and for one ultra-fast
batch cycle when the batch size covers the queue. -/
theorem c3_fifo_no_failures :
    (∀ (ps : List TgPost) (chats : List Chat) (gname : String) (c : Chat),
      chats.find? (fun ch => ch.name == gname) = some c →
      processMessageQueue (List.replicate ps.length [true])
          (onReady chats gname (handlePosts [] ps s0Idx)).1
        = ({ (onReady chats gname (handlePosts [] ps s0Idx)).1 with messageQueue := [] },
          (ps.map buildJob).map SendEvent.sent)) ∧
    (∀ (ok : QMsg5 → Bool) (s : FastState) (c : Chat),
      s.isProcessing = false → s.isWhatsAppReady = true → s.targetChat = some c →
      (∀ m ∈ s.messageQueue, ok m = true) →
      s.messageQueue.length ≤ CONCURRENT_MESSAGES →
      processMessageQueue5 ok s
        = ({ s with messageQueue := [] }, s.messageQueue.map SendEvent.sent)) := by
  constructor
  · intro ps chats gname c hfind
    have hs1 : handlePosts [] ps s0Idx = { s0Idx with messageQueue := List.map buildJob ps } := by
      have := handlePosts_gate_closed [] ps s0Idx rfl
      simpa [s0Idx] using this
    rw [hs1]
    have hready : onReady chats gname { s0Idx with messageQueue := List.map buildJob ps }
        = ({ s0Idx with
             messageQueue := List.map buildJob ps,
             isWhatsAppReady := true,
             targetChat := some c }, none) := by
      simp [onReady, hfind]
    rw [hready]
    have hall := processMessageQueue_all_success
      { s0Idx with
        messageQueue := List.map buildJob ps,
        isWhatsAppReady := true,
        targetChat := some c } c rfl rfl rfl
    simpa [s0Idx, List.length_map] using hall
  · intro ok s c hp hr ht hok hlen
    exact processMessageQueue5_single_batch ok s c hp hr ht hok hlen

/-- Witness for C3: three text posts J1, J2, J3 enqueued while closed,
gate opened by a `ready` transition that resolves "Deals", all sends
succeeding: they are dispatched as exactly J1, J2, J3 and the queue ends
empty; likewise one ultra-fast batch of three jobs. -/
theorem c3_fifo_no_failures_witness :
    processMessageQueue (List.replicate 3 [true])
        (onReady [chatDeals] "Deals"
          (handlePosts [] [TgPost.text "J1", TgPost.text "J2", TgPost.text "J3"] s0Idx)).1
      = ({ (onReady [chatDeals] "Deals"
            (handlePosts [] [TgPost.text "J1", TgPost.text "J2", TgPost.text "J3"] s0Idx)).1
            with messageQueue := [] },
        [SendEvent.sent (buildJob (TgPost.text "J1")),
          SendEvent.sent (buildJob (TgPost.text "J2")),
          SendEvent.sent (buildJob (TgPost.text "J3"))]) := by
  have h := c3_fifo_no_failures.1
    [TgPost.text "J1", TgPost.text "J2", TgPost.text "J3"]
    [chatDeals] "Deals" chatDeals (by simp [chatDeals])
  simpa using h

/-- C4 counterexample: in the primary drain, a sticker job (enqueued with
`important: false`) whose send fails all three attempts is NOT
re-inserted at the head — the queue ends empty, the job is gone. -/
theorem c4_requeue_head_counterexample :
    sendRetryLoop 3 [false, false, false] = false ∧
    pmqLoop [[false, false, false]] [buildJob (TgPost.sticker none)]
      = ([], [SendEvent.failed (buildJob (TgPost.sticker none))]) := ⟨rfl, rfl⟩

/-- C4 amended: a failed job is re-inserted at the queue head when its
`important` flag is set (primary variant) and unconditionally in the
Baileys variant; a job sitting at the head is the first one the next
drain attempts, before any fresh arrival appended behind it. -/
theorem c4_requeue_head_amended :
    (∀ (att : List Bool) (m : QMsg) (q : List QMsg),
      sendRetryLoop 3 att = false → m.important = true →
      pmqLoop [att] (m :: q) = (m :: q, [SendEvent.failed m])) ∧
    (∀ (ok : QMsg4 → Bool) (tgt : String) (m : QMsg4) (q : List QMsg4),
      ok m = false →
      pq4Loop ok true (some tgt) (m :: q) = (m :: q, [SendEvent.failed m])) ∧
    (∀ (att : List Bool) (atts : List (List Bool)) (m : QMsg) (rest : List QMsg),
      (pmqLoop (att :: atts) (m :: rest)).2.head?
        = some (if sendRetryLoop 3 att then SendEvent.sent m else SendEvent.failed m)) := by
  refine ⟨?_, ?_, ?_⟩
  · intro att m q hfail himp
    simp [pmqLoop, hfail, himp]
  · intro ok tgt m q hfail
    simp [pq4Loop, hfail]
  · intro att atts m rest
    cases h : sendRetryLoop 3 att <;> simp [pmqLoop, h]

/-- Witness for C4 (amended): an important text job failing all three
attempts is put back at the head in the primary variant; a failed job is
put back at the head in the Baileys variant; and with a fresh job
appended behind it, the requeued job is the one the next drain tries
first. -/
theorem c4_requeue_head_amended_witness :
    pmqLoop [[false, false, false]] [jobHi] = ([jobHi], [SendEvent.failed jobHi]) ∧
    pq4Loop (fun _ => false) true (some "gid")
        [{ content := "a", timestamp := 0 }, { content := "b", timestamp := 1 }]
      = ([{ content := "a", timestamp := 0 }, { content := "b", timestamp := 1 }],
        [SendEvent.failed { content := "a", timestamp := 0 }]) ∧
    (pmqLoop [[true]] [jobHi, buildJob (TgPost.text "fresh")]).2.head?
      = some (SendEvent.sent jobHi) := by
  refine ⟨?_, ?_, ?_⟩
  · simpa using c4_requeue_head_amended.1 [false, false, false] jobHi [] rfl rfl
  · exact c4_requeue_head_amended.2.1 (fun _ => false) "gid"
      { content := "a", timestamp := 0 } [{ content := "b", timestamp := 1 }] rfl
  · simpa using c4_requeue_head_amended.2.2 [true] []
      jobHi [buildJob (TgPost.text "fresh")]

/-- C10: in the primary drain a job that fails its in-loop retries is
re-inserted at the head exactly when its `important` flag is set, and the
`channel_post` constructor marks precisely the sticker posts as not
important. -/
theorem c10_important_flag_requeue :
    (∀ (att : List Bool) (m : QMsg) (q : List QMsg),
      sendRetryLoop 3 att = false →
      pmqLoop [att] (m :: q)
        = (if m.important then m :: q else q, [SendEvent.failed m])) ∧
    (∀ p : TgPost, (buildJob p).important = !p.isSticker) := by
  constructor
  · intro att m q hfail
    cases h : m.important <;> simp [pmqLoop, hfail, h, pmqLoop_nil_atts]
  · intro p
    cases p <;> rfl

/-- Witness for C10: a failing sticker job is dropped while the important
job behind it stays; a failing important job is requeued at the head. -/
theorem c10_important_flag_requeue_witness :
    pmqLoop [[false, false, false]] [buildJob (TgPost.sticker none), jobHi]
      = ([jobHi], [SendEvent.failed (buildJob (TgPost.sticker none))]) ∧
    pmqLoop [[false, false, false]] [jobHi] = ([jobHi], [SendEvent.failed jobHi]) ∧
    (buildJob (TgPost.sticker none)).important = false ∧
    (buildJob (TgPost.text "hi")).important = true := by
  refine ⟨?_, ?_, rfl, rfl⟩
  · simpa [buildJob] using c10_important_flag_requeue.1 [false, false, false]
      (buildJob (TgPost.sticker none)) [jobHi] rfl
  · simpa [jobHi] using c10_important_flag_requeue.1 [false, false, false] jobHi [] rfl

/-- Every job of a batch is attempted exactly once, in batch order: the
dispatch trace projects back to the batch itself. -/
theorem dispatchBatch_map_job {α : Type} (ok : α → Bool) (b : List α) :
    (dispatchBatch ok b).map SendEvent.job = b := by
  induction b with
  | nil => rfl
  | cons m rest ih =>
    cases h : ok m <;> simp [dispatchBatch, h, SendEvent.job] at ih ⊢ <;> exact ih

/-- The delivered jobs of a batch dispatch are exactly the jobs whose own
send succeeds. -/
theorem sentJobs_dispatchBatch {α : Type} (ok : α → Bool) (b : List α) :
    sentJobs (dispatchBatch ok b) = b.filter (fun m => ok m) := by
  induction b with
  | nil => rfl
  | cons m rest ih =>
    cases h : ok m <;> simp [dispatchBatch, sentJobs, List.filter, h] at ih ⊢ <;>
      simpa [dispatchBatch, sentJobs] using ih

/-- The failure-handled jobs of a batch dispatch are exactly the jobs
whose own send fails. -/
theorem failedJobs_dispatchBatch {α : Type} (ok : α → Bool) (b : List α) :
    failedJobs (dispatchBatch ok b) = b.filter (fun m => !(ok m)) := by
  induction b with
  | nil => rfl
  | cons m rest ih =>
    cases h : ok m <;> simp [dispatchBatch, failedJobs, List.filter, h] at ih ⊢ <;>
      simpa [dispatchBatch, failedJobs] using ih

/-- C5: batch isolation in the ultra-fast drain: with the gate open and
no drain in progress, every job of the spliced batch is attempted exactly
once and in order; the delivered jobs are exactly those whose own send
succeeds (one job's failure does not abort its siblings); each failing
job is handled by this variant's failure policy — logged and dropped —
exactly once: it appears once among the failure events and is not
re-queued. -/
theorem c5_batch_isolation (ok : QMsg5 → Bool) (s : FastState) (c : Chat)
    (hp : s.isProcessing = false) (hr : s.isWhatsAppReady = true)
    (ht : s.targetChat = some c) :
    (processMessageQueue5 ok s).2.map SendEvent.job
        = s.messageQueue.take CONCURRENT_MESSAGES ∧
    sentJobs (processMessageQueue5 ok s).2
        = (s.messageQueue.take CONCURRENT_MESSAGES).filter (fun m => ok m) ∧
    failedJobs (processMessageQueue5 ok s).2
        = (s.messageQueue.take CONCURRENT_MESSAGES).filter (fun m => !(ok m)) ∧
    (processMessageQueue5 ok s).1.messageQueue
        = s.messageQueue.drop CONCURRENT_MESSAGES := by
  obtain ⟨ir, tc, q, ip⟩ := s
  simp only at hp hr ht
  subst hp hr ht
  cases q with
  | nil =>
    refine ⟨rfl, rfl, rfl, rfl⟩
  | cons m rest =>
    have hguard : processMessageQueue5 ok ⟨true, some c, m :: rest, false⟩
        = (⟨true, some c, (m :: rest).drop CONCURRENT_MESSAGES, false⟩,
          dispatchBatch ok ((m :: rest).take CONCURRENT_MESSAGES)) := by
      simp [processMessageQueue5]
    rw [hguard]
    exact ⟨dispatchBatch_map_job ok _, sentJobs_dispatchBatch ok _,
      failedJobs_dispatchBatch ok _, rfl⟩

/-- Witness for C5: a batch of five jobs where exactly job 3 fails: all
five are attempted in order, jobs 1, 2, 4, 5 are delivered, job 3 is
failure-handled exactly once, and the queue ends empty. -/
theorem c5_batch_isolation_witness :
    (processMessageQueue5 (fun m => !(m.content == "3"))
        { isWhatsAppReady := true, targetChat := some chatDeals,
          messageQueue := [⟨"text", "1"⟩, ⟨"text", "2"⟩, ⟨"text", "3"⟩,
            ⟨"text", "4"⟩, ⟨"text", "5"⟩],
          isProcessing := false }).2.map SendEvent.job
      = [⟨"text", "1"⟩, ⟨"text", "2"⟩, ⟨"text", "3"⟩, ⟨"text", "4"⟩, ⟨"text", "5"⟩] ∧
    sentJobs (processMessageQueue5 (fun m => !(m.content == "3"))
        { isWhatsAppReady := true, targetChat := some chatDeals,
          messageQueue := [⟨"text", "1"⟩, ⟨"text", "2"⟩, ⟨"text", "3"⟩,
            ⟨"text", "4"⟩, ⟨"text", "5"⟩],
          isProcessing := false }).2
      = [⟨"text", "1"⟩, ⟨"text", "2"⟩, ⟨"text", "4"⟩, ⟨"text", "5"⟩] ∧
    failedJobs (processMessageQueue5 (fun m => !(m.content == "3"))
        { isWhatsAppReady := true, targetChat := some chatDeals,
          messageQueue := [⟨"text", "1"⟩, ⟨"text", "2"⟩, ⟨"text", "3"⟩,
            ⟨"text", "4"⟩, ⟨"text", "5"⟩],
          isProcessing := false }).2
      = [⟨"text", "3"⟩] ∧
    (processMessageQueue5 (fun m => !(m.content == "3"))
        { isWhatsAppReady := true, targetChat := some chatDeals,
          messageQueue := [⟨"text", "1"⟩, ⟨"text", "2"⟩, ⟨"text", "3"⟩,
            ⟨"text", "4"⟩, ⟨"text", "5"⟩],
          isProcessing := false }).1.messageQueue
      = [] := by
  have h := c5_batch_isolation (fun m => !(m.content == "3"))
    { isWhatsAppReady := true, targetChat := some chatDeals,
      messageQueue := [⟨"text", "1"⟩, ⟨"text", "2"⟩, ⟨"text", "3"⟩,
        ⟨"text", "4"⟩, ⟨"text", "5"⟩],
      isProcessing := false }
    chatDeals rfl rfl rfl
  obtain ⟨h1, h2, h3, h4⟩ := h
  refine ⟨?_, ?_, ?_, ?_⟩
  · rw [h1]; rfl
  · rw [h2]; rfl
  · rw [h3]; rfl
  · rw [h4]; rfl

/-- A list starts with itself. -/
theorem strStartsWith_refl : ∀ l : List Char, strStartsWith l l = true
  | [] => rfl
  | a :: as => by simp [strStartsWith, strStartsWith_refl as]

/-- A string includes itself. -/
theorem strIncludes_self (s : String) : strIncludes s s = true := by
  unfold strIncludes
  cases h : s.toList with
  | nil => simp [listIncludes, strStartsWith]
  | cons a t => simp [listIncludes, strStartsWith_refl]

/-- C6: a `ready` transition in the primary variant where no chat name
equals the configured target leaves the destination handle null and
hence the gate closed, does not touch the queue, and produces the
diagnostic listing of all available chat names (with their group flag). -/
theorem c6_destination_not_found (chats : List Chat) (gname : String)
    (s : IndexState) (h : ∀ c ∈ chats, (c.name == gname) = false) :
    onReady chats gname s
        = ({ s with isWhatsAppReady := true, targetChat := none },
          some (chats.map fun c => (c.name, c.isGroup))) ∧
    gateIsOpen (onReady chats gname s).1 = false ∧
    (onReady chats gname s).1.messageQueue = s.messageQueue := by
  have hfind : chats.find? (fun c => c.name == gname) = none :=
    List.find?_eq_none.mpr fun c hc => by simp [h c hc]
  refine ⟨by simp [onReady, hfind], ?_, ?_⟩ <;> simp [onReady, hfind, gateIsOpen]

/-- Witness for C6: the listing holds one chat "Deals" while the
configured target is "deals": no exact match, handle null, gate closed,
queue (one job) untouched, and the diagnostic listing produced. -/
theorem c6_destination_not_found_witness :
    onReady [chatDeals] "deals" sIdxClosed
        = ({ sIdxClosed with isWhatsAppReady := true, targetChat := none },
          some [("Deals", true)]) ∧
    gateIsOpen (onReady [chatDeals] "deals" sIdxClosed).1 = false ∧
    (onReady [chatDeals] "deals" sIdxClosed).1.messageQueue = [jobHi] := by
  have h := c6_destination_not_found [chatDeals] "deals" sIdxClosed
    (by intro c hc; simp [chatDeals] at hc; simp [hc, chatDeals])
  obtain ⟨h1, h2, h3⟩ := h
  refine ⟨?_, h2, ?_⟩
  · rw [h1]; rfl
  · rw [h3]; rfl

/-- C7 counterexample: the primary variant's `ready` resolution
(`chats.find(chat => chat.name === WHATSAPP_GROUP_NAME)`) is
case-sensitive: with the single chat "Deals" and the configured target
"deals" — names equal up to letter case — no destination is selected. -/
theorem c7_case_insensitive_counterexample :
    jsToLower chatDeals.name = jsToLower "deals" ∧
    (onReady [chatDeals] "deals" s0Idx).1.targetChat = none := by
  constructor
  · decide
  · rfl

/-- C7 amended: the mega variant resolves the destination by a
case-insensitive group-name match, and the management variant by a
case-insensitive substring match — a chat differing from the target only
in letter case is selected by both; the primary variant instead requires
an exact, case-sensitive match. -/
theorem c7_case_insensitive_amended :
    (∀ (chats : List Chat) (gname : String) (c : Chat),
      c ∈ chats → c.isGroup = true → jsToLower c.name = jsToLower gname →
      (findGroupMega chats gname).isSome = true) ∧
    (∀ (gs : List GroupInfo) (gname : String) (g : GroupInfo),
      g ∈ gs → jsToLower g.name = jsToLower gname →
      (selectGroupByName gs gname).isSome = true) := by
  constructor
  · intro chats gname c hc hg hn
    exact List.find?_isSome.mpr ⟨c, hc, by simp [hg, hn]⟩
  · intro gs gname g hg hn
    exact List.find?_isSome.mpr ⟨g, hg, by rw [hn]; exact strIncludes_self _⟩

/-- Witness for C7 (amended): the group "Deals" is selected for the
target "deals" by both the mega resolution and the management
resolution. -/
theorem c7_case_insensitive_amended_witness :
    (findGroupMega [chatDeals] "deals").isSome = true ∧
    (selectGroupByName [{ id := "g1", name := "Deals", participantCount := 2 }]
      "deals").isSome = true := by
  constructor
  · exact c7_case_insensitive_amended.1 [chatDeals] "deals" chatDeals
      (List.mem_singleton.mpr rfl) rfl (by decide)
  · exact c7_case_insensitive_amended.2
      [{ id := "g1", name := "Deals", participantCount := 2 }] "deals"
      { id := "g1", name := "Deals", participantCount := 2 }
      (List.mem_singleton.mpr rfl) (by decide)

/-- C8 counterexample: the primary variant's `disconnected` handler does
NOT clear the destination handle: after the transition from a ready state
with a resolved target, `targetChat` is still set. -/
theorem c8_disconnect_counterexample :
    ¬ ((onDisconnectedIndex
      { isWhatsAppReady := true, targetChat := some chatDeals,
        messageQueue := [], isProcessing := false }).1.targetChat = none) := by
  simp [onDisconnectedIndex]

/-- C8 amended: on disconnect the gate closes in every variant; the
index.js variants schedule a reconnect after a fixed bounded delay (5000
ms primary and mega, 1000 ms ultra-fast — all within 1–5 s) but leave the
destination handle unchanged; the management variant clears the handle
but schedules no reconnect. -/
theorem c8_disconnect_amended :
    (∀ s : IndexState,
      (onDisconnectedIndex s).1.isWhatsAppReady = false ∧
      gateIsOpen (onDisconnectedIndex s).1 = false ∧
      (onDisconnectedIndex s).1.targetChat = s.targetChat ∧
      (onDisconnectedIndex s).2 = some 5000) ∧
    (∀ s : MegaState,
      (onDisconnectedMega s).1.isReady = false ∧
      (onDisconnectedMega s).1.whatsappGroupId = s.whatsappGroupId ∧
      (onDisconnectedMega s).2 = some 5000) ∧
    (∀ s : FastState,
      (onDisconnectedFast s).1.isWhatsAppReady = false ∧
      (onDisconnectedFast s).1.targetChat = s.targetChat ∧
      (onDisconnectedFast s).2 = some 1000) ∧
    (∀ s : MgmtState,
      (onDisconnectedMgmt s).1.isReady = false ∧
      (onDisconnectedMgmt s).1.currentGroupId = none ∧
      (onDisconnectedMgmt s).2 = none) := by
  refine ⟨fun s => ⟨rfl, ?_, rfl, rfl⟩, fun s => ⟨rfl, rfl, rfl⟩,
    fun s => ⟨rfl, rfl, rfl⟩, fun s => ⟨rfl, rfl, rfl⟩⟩
  simp [onDisconnectedIndex, gateIsOpen]

/-- With the gate open and no drain in progress, one ultra-fast cycle
consumes one batch off the queue head and attempts it, whatever the
outcomes. -/
theorem processMessageQueue5_step (ok : QMsg5 → Bool) (s : FastState) (c : Chat)
    (hp : s.isProcessing = false) (hr : s.isWhatsAppReady = true)
    (ht : s.targetChat = some c) :
    processMessageQueue5 ok s
      = ({ s with messageQueue := s.messageQueue.drop CONCURRENT_MESSAGES },
        dispatchBatch ok (s.messageQueue.take CONCURRENT_MESSAGES)) := by
  obtain ⟨ir, tc, q, ip⟩ := s
  simp only at hp hr ht
  subst hp hr ht
  cases q with
  | nil => rfl
  | cons m rest => simp [processMessageQueue5]

/-- Iterating the ultra-fast drain `n` cycles from an open-gate state
leaves exactly the queue minus `n` batches. -/
theorem drain5Iter_queue (ok : QMsg5 → Bool) :
    ∀ (n : Nat) (s : FastState) (c : Chat),
      s.isProcessing = false → s.isWhatsAppReady = true → s.targetChat = some c →
      (drain5Iter ok n s).1
        = { s with messageQueue := s.messageQueue.drop (CONCURRENT_MESSAGES * n) } := by
  intro n
  induction n with
  | zero =>
    intro s c hp hr ht
    obtain ⟨ir, tc, q, ip⟩ := s
    rfl
  | succ n ih =>
    intro s c hp hr ht
    have hstep := processMessageQueue5_step ok s c hp hr ht
    have h1 : (drain5Iter ok (n + 1) s).1
        = (drain5Iter ok n (processMessageQueue5 ok s).1).1 := rfl
    rw [h1, hstep]
    show (drain5Iter ok n
      { s with messageQueue := s.messageQueue.drop CONCURRENT_MESSAGES }).1 = _
    rw [ih { s with messageQueue := s.messageQueue.drop CONCURRENT_MESSAGES } c hp hr ht]
    simp [List.drop_drop, Nat.mul_succ]
    rw [Nat.add_comm]

/-- C9: with the gate open (ready, destination resolved), no drain in
progress, k jobs queued and every send succeeding, the ultra-fast drain
reaches queue size 0 within `ceil(k / CONCURRENT_MESSAGES)` batch
cycles. -/
theorem c9_drain_bounded_cycles (ok : QMsg5 → Bool) (s : FastState) (c : Chat)
    (hp : s.isProcessing = false) (hr : s.isWhatsAppReady = true)
    (ht : s.targetChat = some c) (_hok : ∀ m ∈ s.messageQueue, ok m = true) :
    (drain5Iter ok
      ((s.messageQueue.length + CONCURRENT_MESSAGES - 1) / CONCURRENT_MESSAGES)
      s).1.messageQueue = [] := by
  rw [drain5Iter_queue ok _ s c hp hr ht]
  have hge : s.messageQueue.length
      ≤ CONCURRENT_MESSAGES
        * ((s.messageQueue.length + CONCURRENT_MESSAGES - 1) / CONCURRENT_MESSAGES) := by
    simp only [CONCURRENT_MESSAGES]
    omega
  simpa using List.drop_eq_nil_of_le hge

/-- Witness for C9: ten queued jobs, gate open, all sends succeeding:
after `ceil(10 / 5) = 2` batch cycles the queue is empty. -/
theorem c9_drain_bounded_cycles_witness :
    (drain5Iter (fun _ => true) 2
      { isWhatsAppReady := true, targetChat := some chatDeals,
        messageQueue := [⟨"text", "1"⟩, ⟨"text", "2"⟩, ⟨"text", "3"⟩,
          ⟨"text", "4"⟩, ⟨"text", "5"⟩, ⟨"text", "6"⟩, ⟨"text", "7"⟩,
          ⟨"text", "8"⟩, ⟨"text", "9"⟩, ⟨"text", "10"⟩],
        isProcessing := false }).1.messageQueue = [] := by
  have h := c9_drain_bounded_cycles (fun _ => true)
    { isWhatsAppReady := true, targetChat := some chatDeals,
      messageQueue := [⟨"text", "1"⟩, ⟨"text", "2"⟩, ⟨"text", "3"⟩,
        ⟨"text", "4"⟩, ⟨"text", "5"⟩, ⟨"text", "6"⟩, ⟨"text", "7"⟩,
        ⟨"text", "8"⟩, ⟨"text", "9"⟩, ⟨"text", "10"⟩],
      isProcessing := false }
    chatDeals rfl rfl rfl (fun _ _ => rfl)
  simpa using h

end WtBridge
